import Mathlib

/-!
# MKP SDK Core — formal model and verification

The repository ships only package documentation (READMEs and build
configuration); the core communication layer itself (Message Envelope,
Origin Validator, Transport Adapter, Handshake Coordinator, Correlation
Manager, Subscription Registry, Protocol Engine) and the client SDK's
query/mutation API are not present as source files.  Every definition
below is therefore modelled from the specification's own words and the
package READMEs, and the claims are settled against these models.
-/

namespace MkpCore

/-- Modelled from the spec: `payload` is "opaque, serializable data";
we model it as an opaque string. -/
abbrev Payload := String

/-- Modelled from the spec: envelope `type` is one of
`HANDSHAKE_INIT | HANDSHAKE_ACK | HANDSHAKE_COMPLETE | REQUEST |
RESPONSE | EVENT | SUBSCRIBE | UNSUBSCRIBE | ERROR`. -/
inductive EnvelopeType
  | HANDSHAKE_INIT
  | HANDSHAKE_ACK
  | HANDSHAKE_COMPLETE
  | REQUEST
  | RESPONSE
  | EVENT
  | SUBSCRIBE
  | UNSUBSCRIBE
  | ERROR
  deriving DecidableEq, Repr

/-- Modelled from the spec: the Message Envelope, the wire-level unit of
exchange — `id`, `type`, optional `channel` and `correlationId`, opaque
`payload`, `origin` (populated by the Transport Adapter), `timestamp`. -/
structure Envelope where
  id : String
  type : EnvelopeType
  channel : Option String
  correlationId : Option String
  payload : Option Payload
  origin : String
  timestamp : Nat
  deriving DecidableEq, Repr

/-- Modelled from the spec: the error taxonomy of §7. -/
inductive ErrorKind
  | ORIGIN_MISMATCH
  | MALFORMED_MESSAGE
  | STALE_HANDSHAKE
  | HANDSHAKE_TIMEOUT
  | HANDSHAKE_FAILED
  | REQUEST_TIMEOUT
  | DUPLICATE_ID
  | NO_HANDLER
  | SESSION_NOT_CONNECTED
  deriving DecidableEq, Repr

/-- Modelled from the spec: the deferred result of a request — a tagged
success/failure variant (§9, "a single deferred result type carrying a
tagged success/failure variant"). -/
inductive ReqOutcome
  | success (payload : Payload)
  | failure (kind : ErrorKind) (message : String)
  deriving DecidableEq, Repr

/-- Modelled from the spec: a Pending Request — id, channel, issue time,
timeout deadline (§3, "Pending Request"). -/
structure PendingRequest where
  id : String
  channel : String
  issuedAt : Nat
  deadline : Nat
  deriving DecidableEq, Repr

/-- Modelled from the spec: the Correlation Manager's state — the set of
Pending Requests it exclusively owns, the completed deferred results
(keyed by originating request id), and a count of anomalous (ignored and
logged) responses. -/
structure CorrState where
  pending : List PendingRequest
  resolved : List (String × ReqOutcome)
  anomalies : Nat
  deriving DecidableEq, Repr

/-- Whether a request with this id is currently pending. -/
def CorrState.isPending (s : CorrState) (rid : String) : Bool :=
  s.pending.any (fun p => p.id == rid)

/-- The completed deferred result for a request id, if any.  A deferred
result completes at most once, so the first recorded resolution is the
one the caller observes. -/
def CorrState.result (s : CorrState) (rid : String) : Option ReqOutcome :=
  (s.resolved.find? (fun r => r.1 == rid)).map Prod.snd

/-- Modelled from the spec: `send` generates a fresh id and registers a
Pending Request with a deadline at `now + timeoutMs`; an id collision
with a currently-pending request is a programming-error condition
reported immediately (`DUPLICATE_ID`) rather than silently overwritten. -/
def CorrState.send (s : CorrState) (rid ch : String) (now timeoutMs : Nat) :
    CorrState × Option ReqOutcome :=
  if s.isPending rid then
    (s, some (ReqOutcome.failure ErrorKind.DUPLICATE_ID "id collision among pending requests"))
  else
    ({ s with pending := s.pending ++ [⟨rid, ch, now, now + timeoutMs⟩] }, none)

/-- Modelled from the spec: on a RESPONSE whose `correlationId` matches
an outstanding request, resolve the deferred result with the payload and
remove the Pending Request; a RESPONSE matching no outstanding request
(including a second RESPONSE for an already-resolved id) is ignored and
logged as anomalous. -/
def CorrState.onResponse (s : CorrState) (corrId : String) (payload : Payload) : CorrState :=
  if s.isPending corrId then
    { pending := s.pending.filter (fun p => p.id != corrId)
      resolved := s.resolved ++ [(corrId, ReqOutcome.success payload)]
      anomalies := s.anomalies }
  else
    { s with anomalies := s.anomalies + 1 }

/-- Modelled from the spec: on a matching ERROR envelope, resolve the
deferred result as a failure carrying the declared `ErrorKind` and
message from the payload. -/
def CorrState.onError (s : CorrState) (corrId : String) (kind : ErrorKind)
    (message : String) : CorrState :=
  if s.isPending corrId then
    { pending := s.pending.filter (fun p => p.id != corrId)
      resolved := s.resolved ++ [(corrId, ReqOutcome.failure kind message)]
      anomalies := s.anomalies }
  else
    { s with anomalies := s.anomalies + 1 }

/-- Modelled from the spec: on deadline expiry with no response the
deferred result resolves as failure with `REQUEST_TIMEOUT` and the
Pending Request is removed.  `expire` fires every deadline that has been
reached by time `now`. -/
def CorrState.expire (s : CorrState) (now : Nat) : CorrState :=
  { pending := s.pending.filter (fun p => decide (now < p.deadline))
    resolved := s.resolved ++
      (s.pending.filter (fun p => decide (p.deadline ≤ now))).map
        (fun p => (p.id, ReqOutcome.failure ErrorKind.REQUEST_TIMEOUT "request timed out"))
    anomalies := s.anomalies }

/-- Processing a sequence of RESPONSE arrivals (correlationId, payload),
in arrival order. -/
def processResponses (s : CorrState) (rs : List (String × Payload)) : CorrState :=
  rs.foldl (fun st r => st.onResponse r.1 r.2) s

/-- Modelled from the spec §4.2: the handshake states of a session, with
`CONNECTED` terminal success and `FAILED` terminal failure. -/
inductive HandshakeState
  | IDLE
  | INIT_SENT
  | ACK_RECEIVED
  | AWAITING_COMPLETE
  | CONNECTED
  | FAILED
  deriving DecidableEq, Repr

/-- Modelled from the spec: a session's handshake-relevant attributes —
current state, the configured origin allow-list, the nonce this side
expects echoed back, and the peer origin pinned once observed. -/
structure HandshakeSession where
  state : HandshakeState
  allowedOrigins : List String
  nonce : Option String
  pinnedOrigin : Option String
  deriving DecidableEq, Repr

/-- The inputs driving the handshake state machine: receipt of the three
handshake envelope kinds (with the sender origin reported by the
transport, and the nonce carried in the payload), the initiator's own
HANDSHAKE_COMPLETE send, and handshake-timer expiry. -/
inductive HandshakeEvent
  | recvInit (origin : String)
  | recvAck (origin : String) (nonce : String)
  | recvComplete (origin : String) (nonce : String)
  | sendComplete
  | timeout
  deriving DecidableEq, Repr

/-- The origin a received handshake envelope arrived from, if the event
is a receipt. -/
def HandshakeEvent.originOf : HandshakeEvent → Option String
  | .recvInit o => some o
  | .recvAck o _ => some o
  | .recvComplete o _ => some o
  | .sendComplete => none
  | .timeout => none

/-- `CONNECTED` and `FAILED` are the terminal handshake states. -/
def HandshakeState.isTerminal : HandshakeState → Bool
  | .CONNECTED => true
  | .FAILED => true
  | _ => false

/-- Modelled from the spec §4.2: one transition of the handshake state
machine.  Initiator: `INIT_SENT` —ACK with matching nonce→ `ACK_RECEIVED`
—sends COMPLETE→ `CONNECTED`.  Responder: `IDLE` —INIT from validated
origin→ `AWAITING_COMPLETE` —COMPLETE echoing the nonce→ `CONNECTED`.
Any validation failure (origin outside the allow-list), nonce mismatch,
or timeout in a non-terminal state transitions to `FAILED`; terminal
states never change.  On success the observed peer origin is pinned. -/
def handshakeStep (s : HandshakeSession) (e : HandshakeEvent) : HandshakeSession :=
  if s.state.isTerminal then s
  else
    match e with
    | .timeout => { s with state := .FAILED }
    | .sendComplete =>
        if s.state = .ACK_RECEIVED then { s with state := .CONNECTED } else s
    | .recvInit o =>
        if o ∉ s.allowedOrigins then { s with state := .FAILED }
        else if s.state = .IDLE then { s with state := .AWAITING_COMPLETE }
        else { s with state := .FAILED }
    | .recvAck o n =>
        if o ∉ s.allowedOrigins then { s with state := .FAILED }
        else if s.state = .INIT_SENT then
          if s.nonce = some n then
            { s with state := .ACK_RECEIVED, pinnedOrigin := some o }
          else { s with state := .FAILED }
        else { s with state := .FAILED }
    | .recvComplete o n =>
        if o ∉ s.allowedOrigins then { s with state := .FAILED }
        else if s.state = .AWAITING_COMPLETE then
          if s.nonce = some n then
            { s with state := .CONNECTED, pinnedOrigin := some o }
          else { s with state := .FAILED }
        else { s with state := .FAILED }

/-- A run of the handshake state machine over a sequence of events. -/
def handshakeRun (s : HandshakeSession) (es : List HandshakeEvent) : HandshakeSession :=
  es.foldl handshakeStep s

/-- Modelled from the spec: a local Subscription — channel, subscriber
handle, and local callback.  The callback is abstracted by whether
invoking it raises an error (`fails`). -/
structure Subscriber where
  handle : Nat
  channel : String
  fails : Bool
  deriving DecidableEq, Repr

/-- Modelled from the spec: the Subscription Registry's local state —
the local subscriptions in registration order, and the next fresh
subscriber handle. -/
structure SubState where
  subs : List Subscriber
  nextHandle : Nat
  deriving DecidableEq, Repr

/-- The local reference count for a channel: the number of currently
registered local subscribers for it. -/
def SubState.refCount (s : SubState) (ch : String) : Nat :=
  (s.subs.filter (fun x => x.channel == ch)).length

/-- A wire envelope emitted by the Subscription Registry towards the
peer (remote subscription bookkeeping). -/
inductive SubWire
  | SUBSCRIBE (channel : String)
  | UNSUBSCRIBE (channel : String)
  deriving DecidableEq, Repr

/-- Modelled from the spec §4.4: `subscribe(channel, …) → handle`.  The
first local subscriber to a channel triggers a SUBSCRIBE envelope to the
peer; subsequent local subscribers to the same channel are fan-out only
(no additional wire traffic).  Returns the new state, the subscriber
handle, and the wire traffic emitted. -/
def SubState.subscribe (s : SubState) (ch : String) (fails : Bool) :
    SubState × Nat × List SubWire :=
  ({ subs := s.subs ++ [⟨s.nextHandle, ch, fails⟩], nextHandle := s.nextHandle + 1 },
   s.nextHandle,
   if s.refCount ch = 0 then [SubWire.SUBSCRIBE ch] else [])

/-- Modelled from the spec §4.4: `unsubscribe(handle)` decrements the
local reference count for the subscription's channel; reaching zero
triggers an UNSUBSCRIBE envelope to the peer and removes the local
bookkeeping.  An unknown handle is a no-op. -/
def SubState.unsubscribe (s : SubState) (h : Nat) : SubState × List SubWire :=
  match s.subs.find? (fun x => x.handle == h) with
  | none => (s, [])
  | some sub =>
    ({ s with subs := s.subs.filter (fun x => x.handle != h) },
     if (s.subs.filter (fun x => x.handle != h)).countP
          (fun x => x.channel == sub.channel) = 0
     then [SubWire.UNSUBSCRIBE sub.channel] else [])

/-- The observable outcome of invoking one local subscriber callback:
either it returned normally, or it raised and the error was caught
(and logged) by the registry. -/
inductive CallbackResult
  | ok
  | errorCaught
  deriving DecidableEq, Repr

/-- Modelled from the spec §4.4: an incoming EVENT envelope is delivered
to every currently-registered local subscriber for its channel, in
subscriber-registration order; a callback raising an error is caught so
that it does not prevent delivery to the remaining subscribers.  Returns
the invocation log: (handle, outcome) in invocation order. -/
def SubState.deliverEvent (s : SubState) (ch : String) : List (Nat × CallbackResult) :=
  (s.subs.filter (fun x => x.channel == ch)).map
    (fun x => (x.handle, if x.fails then CallbackResult.errorCaught else CallbackResult.ok))

/-- A JSON-like wire value (the wire envelope is "conceptually JSON, but
format-agnostic"). -/
inductive JValue
  | jstr (s : String)
  | jnum (n : Nat)
  | jnull
  deriving DecidableEq, Repr

/-- Wire encoding of an envelope type tag. -/
def typeToString : EnvelopeType → String
  | .HANDSHAKE_INIT => "HANDSHAKE_INIT"
  | .HANDSHAKE_ACK => "HANDSHAKE_ACK"
  | .HANDSHAKE_COMPLETE => "HANDSHAKE_COMPLETE"
  | .REQUEST => "REQUEST"
  | .RESPONSE => "RESPONSE"
  | .EVENT => "EVENT"
  | .SUBSCRIBE => "SUBSCRIBE"
  | .UNSUBSCRIBE => "UNSUBSCRIBE"
  | .ERROR => "ERROR"

/-- Wire decoding of an envelope type tag. -/
def typeFromString (s : String) : Option EnvelopeType :=
  if s = "HANDSHAKE_INIT" then some .HANDSHAKE_INIT
  else if s = "HANDSHAKE_ACK" then some .HANDSHAKE_ACK
  else if s = "HANDSHAKE_COMPLETE" then some .HANDSHAKE_COMPLETE
  else if s = "REQUEST" then some .REQUEST
  else if s = "RESPONSE" then some .RESPONSE
  else if s = "EVENT" then some .EVENT
  else if s = "SUBSCRIBE" then some .SUBSCRIBE
  else if s = "UNSUBSCRIBE" then some .UNSUBSCRIBE
  else if s = "ERROR" then some .ERROR
  else none

/-- Encoding of an optional string field. -/
def optStr : Option String → JValue
  | some s => .jstr s
  | none => .jnull

/-- Decoding of an optional string field; a number in such a slot is
malformed. -/
def jvalToOptStr : JValue → Option (Option String)
  | .jstr s => some (some s)
  | .jnull => some none
  | .jnum _ => none

/-- Modelled from the spec §6: the sending Transport Adapter serializes
an envelope into the wire form `{ id, type, channel?, correlationId?,
payload?, origin, timestamp }` — every field, including whatever origin
and timestamp values the sender holds, appears on the wire. -/
def serialize (e : Envelope) : List (String × JValue) :=
  [("id", .jstr e.id),
   ("type", .jstr (typeToString e.type)),
   ("channel", optStr e.channel),
   ("correlationId", optStr e.correlationId),
   ("payload", optStr e.payload),
   ("origin", .jstr e.origin),
   ("timestamp", .jnum e.timestamp)]

/-- Wire decoding of an envelope; anything not of the expected shape is
malformed (`none`). -/
def deserialize (w : List (String × JValue)) : Option Envelope :=
  match w with
  | [("id", .jstr i), ("type", .jstr ty), ("channel", ch),
     ("correlationId", cid), ("payload", pl), ("origin", .jstr o),
     ("timestamp", .jnum ts)] =>
    match typeFromString ty, jvalToOptStr ch, jvalToOptStr cid, jvalToOptStr pl with
    | some t, some c, some ci, some p =>
        some { id := i, type := t, channel := c, correlationId := ci,
               payload := p, origin := o, timestamp := ts }
    | _, _, _, _ => none
  | _ => none

/-- Modelled from the spec: the receiving Transport Adapter deserializes
the wire form and stamps `origin` and `timestamp` from the underlying
platform event — never from the sender-supplied wire content (prevents
spoofing via payload). -/
def receiveWire (w : List (String × JValue)) (platformOrigin : String)
    (platformTimestamp : Nat) : Option Envelope :=
  (deserialize w).map
    (fun e => { e with origin := platformOrigin, timestamp := platformTimestamp })

/-- Modelled from the spec §4.1: rejection reasons of the Origin
Validator. -/
inductive RejectReason
  | ORIGIN_MISMATCH
  | MALFORMED
  | STALE
  deriving DecidableEq, Repr

/-- Modelled from the spec §4.1: the validation verdict. -/
inductive ValidationResult
  | Accepted
  | Rejected (reason : RejectReason)
  deriving DecidableEq, Repr

/-- Modelled from the spec §3: the fields required for the declared
`type` — `channel` for REQUEST/RESPONSE/EVENT/SUBSCRIBE, `correlationId`
for RESPONSE and ERROR. -/
def requiredFieldsOk (e : Envelope) : Bool :=
  match e.type with
  | .REQUEST => e.channel.isSome
  | .RESPONSE => e.channel.isSome && e.correlationId.isSome
  | .EVENT => e.channel.isSome
  | .SUBSCRIBE => e.channel.isSome
  | .ERROR => e.correlationId.isSome
  | _ => true

/-- Whether an envelope type belongs to the handshake. -/
def EnvelopeType.isHandshake : EnvelopeType → Bool
  | .HANDSHAKE_INIT => true
  | .HANDSHAKE_ACK => true
  | .HANDSHAKE_COMPLETE => true
  | _ => false

/-- Modelled from the spec §4.1:
`validate(envelope, trustedOrigins) → Accepted | Rejected(reason)`.
`ORIGIN_MISMATCH`: origin not in the configured trust set, or not equal
to the pinned peer origin once the session is CONNECTED.  `MALFORMED`:
missing required fields for the declared type.  `STALE`: timestamp
precedes the last accepted timestamp from the peer by more than the
configured skew, handshake envelopes only. -/
def validate (trusted : List String) (pinned : Option String) (connected : Bool)
    (lastAccepted skew : Nat) (e : Envelope) : ValidationResult :=
  if (if connected then pinned ≠ some e.origin else e.origin ∉ trusted) then
    .Rejected .ORIGIN_MISMATCH
  else if ¬ requiredFieldsOk e then .Rejected .MALFORMED
  else if e.type.isHandshake ∧ e.timestamp + skew < lastAccepted then .Rejected .STALE
  else .Accepted

/-- Modelled from the spec §6: the configuration surface consumed at
session construction, together with the externally supplied handler map
of the responding side (`registerHandler`): the channels that have a
registered handler, and the handler function applied to a REQUEST's
payload. -/
structure EngineConfig where
  allowedOrigins : List String
  skewMs : Nat
  handlers : List String
  handlerFn : String → Payload → Payload

/-- Modelled from the spec: the Protocol Engine's state — the session's
handshake coordinator, the Correlation Manager, the local Subscription
Registry, the remote peer's subscription bookkeeping (channels the peer
subscribed to), the last accepted peer timestamp, and a protocol-anomaly
counter. -/
structure EngineState where
  session : HandshakeSession
  corr : CorrState
  registry : SubState
  remoteSubs : List String
  lastAccepted : Nat
  anomalies : Nat
  deriving DecidableEq, Repr

/-- The outcome of processing one inbound envelope: the successor state,
envelopes sent back over the transport, whether the envelope reached the
Protocol Engine's router, failures surfaced to caller code, the local
EVENT deliveries performed, and the internal diagnostic hook's record of
rejections (not visible to callers or to the sender). -/
structure StepOut where
  state : EngineState
  sent : List Envelope
  routed : Bool
  callerFailures : List ErrorKind
  delivered : List (Nat × CallbackResult)
  diagnostics : List RejectReason
  deriving DecidableEq, Repr

/-- The Origin Validator applied at the engine's current state: once the
session is CONNECTED the trust set tightens from the configured
allow-list to the pinned peer origin. -/
def validateAt (cfg : EngineConfig) (st : EngineState) (e : Envelope) : ValidationResult :=
  validate cfg.allowedOrigins st.session.pinnedOrigin
    (st.session.state == HandshakeState.CONNECTED) st.lastAccepted cfg.skewMs e

/-- The handshake event carried by a handshake envelope (the nonce rides
in the payload), if any. -/
def envelopeToHandshakeEvent (e : Envelope) : Option HandshakeEvent :=
  match e.type with
  | .HANDSHAKE_INIT => some (.recvInit e.origin)
  | .HANDSHAKE_ACK => some (.recvAck e.origin (e.payload.getD ""))
  | .HANDSHAKE_COMPLETE => some (.recvComplete e.origin (e.payload.getD ""))
  | _ => none

/-- Modelled from the spec §4.3: an ERROR envelope's payload declares the
`ErrorKind`; with the payload opaque on the wire we decode the taxonomy
names, anything else counting as a handshake-level failure declaration. -/
def parseErrorKind (p : Payload) : ErrorKind :=
  if p = "ORIGIN_MISMATCH" then .ORIGIN_MISMATCH
  else if p = "MALFORMED_MESSAGE" then .MALFORMED_MESSAGE
  else if p = "STALE_HANDSHAKE" then .STALE_HANDSHAKE
  else if p = "HANDSHAKE_TIMEOUT" then .HANDSHAKE_TIMEOUT
  else if p = "REQUEST_TIMEOUT" then .REQUEST_TIMEOUT
  else if p = "DUPLICATE_ID" then .DUPLICATE_ID
  else if p = "NO_HANDLER" then .NO_HANDLER
  else if p = "SESSION_NOT_CONNECTED" then .SESSION_NOT_CONNECTED
  else .HANDSHAKE_FAILED

/-- Modelled from the spec §4.5: the router for a validated inbound
envelope.  `HANDSHAKE_*` go to the Handshake Coordinator; `RESPONSE` and
`ERROR` to the Correlation Manager; `EVENT` to the Subscription
Registry; `SUBSCRIBE`/`UNSUBSCRIBE` register/deregister the remote peer
as an event recipient; `REQUEST` invokes the locally registered handler
for the channel and replies with RESPONSE, or with ERROR (`NO_HANDLER`)
when the channel has none.  Non-handshake envelopes on a session that is
not CONNECTED are dropped and counted as a protocol anomaly. -/
def routeEnvelope (cfg : EngineConfig) (st : EngineState) (e : Envelope) : StepOut :=
  if e.type.isHandshake then
    match envelopeToHandshakeEvent e with
    | some ev =>
        { state := { st with session := handshakeStep st.session ev
                             lastAccepted := max st.lastAccepted e.timestamp }
          sent := [], routed := true, callerFailures := [], delivered := []
          diagnostics := [] }
    | none =>
        { state := st, sent := [], routed := true, callerFailures := []
          delivered := [], diagnostics := [] }
  else if st.session.state ≠ HandshakeState.CONNECTED then
    { state := { st with anomalies := st.anomalies + 1 }
      sent := [], routed := true, callerFailures := [], delivered := []
      diagnostics := [] }
  else
    match e.type with
    | .RESPONSE =>
        { state := { st with
            corr := st.corr.onResponse (e.correlationId.getD "") (e.payload.getD "") }
          sent := [], routed := true, callerFailures := [], delivered := []
          diagnostics := [] }
    | .ERROR =>
        { state := { st with
            corr := st.corr.onError (e.correlationId.getD "")
              (parseErrorKind (e.payload.getD "")) (e.payload.getD "") }
          sent := [], routed := true, callerFailures := [], delivered := []
          diagnostics := [] }
    | .EVENT =>
        { state := st, sent := [], routed := true, callerFailures := []
          delivered := st.registry.deliverEvent (e.channel.getD "")
          diagnostics := [] }
    | .SUBSCRIBE =>
        { state := { st with remoteSubs :=
            if (e.channel.getD "") ∈ st.remoteSubs then st.remoteSubs
            else st.remoteSubs ++ [e.channel.getD ""] }
          sent := [], routed := true, callerFailures := [], delivered := []
          diagnostics := [] }
    | .UNSUBSCRIBE =>
        { state := { st with remoteSubs :=
            st.remoteSubs.filter (fun c => c != e.channel.getD "") }
          sent := [], routed := true, callerFailures := [], delivered := []
          diagnostics := [] }
    | .REQUEST =>
        if (e.channel.getD "") ∈ cfg.handlers then
          { state := st
            sent := [{ id := "resp:" ++ e.id, type := .RESPONSE
                       channel := e.channel, correlationId := some e.id
                       payload := some (cfg.handlerFn (e.channel.getD "") (e.payload.getD ""))
                       origin := "", timestamp := e.timestamp }]
            routed := true, callerFailures := [], delivered := [], diagnostics := [] }
        else
          { state := st
            sent := [{ id := "err:" ++ e.id, type := .ERROR
                       channel := e.channel, correlationId := some e.id
                       payload := some "NO_HANDLER"
                       origin := "", timestamp := e.timestamp }]
            routed := true, callerFailures := [], delivered := [], diagnostics := [] }
    | _ =>
        { state := st, sent := [], routed := true, callerFailures := []
          delivered := [], diagnostics := [] }

/-- Modelled from the spec §4.1/§4.5: processing one inbound envelope at
the transport boundary.  The Origin Validator runs first; a rejected
envelope is dropped silently — it never reaches the router, nothing is
sent back to the sender, no failure is surfaced to caller code, and only
the internal diagnostic hook observes it. -/
def processInbound (cfg : EngineConfig) (st : EngineState) (e : Envelope) : StepOut :=
  match validateAt cfg st e with
  | .Rejected r =>
      { state := st, sent := [], routed := false, callerFailures := []
        delivered := [], diagnostics := [r] }
  | .Accepted => routeEnvelope cfg st e

/-- One trace step: process the envelope at the accumulated state and
append whatever was sent back over the transport. -/
def traceStep (cfg : EngineConfig) (acc : EngineState × List Envelope) (e : Envelope) :
    EngineState × List Envelope :=
  ((processInbound cfg acc.1 e).state, acc.2 ++ (processInbound cfg acc.1 e).sent)

/-- Processing a trace of inbound envelopes, accumulating the envelopes
sent back over the transport. -/
def processTrace (cfg : EngineConfig) (st : EngineState) (es : List Envelope) :
    EngineState × List Envelope :=
  es.foldl (traceStep cfg) (st, [])

/-- Modelled from the spec §4.5/§7: `request` on the Protocol Engine.  A
session that is not CONNECTED (not yet completed, or FAILED) rejects the
call immediately with `SESSION_NOT_CONNECTED` — nothing is queued and no
envelope reaches the wire.  Otherwise the Correlation Manager registers
the Pending Request (an id collision is reported immediately) and the
REQUEST envelope is sent. -/
def engineRequest (st : EngineState) (ch : String) (p : Payload) (rid : String)
    (now timeoutMs : Nat) : EngineState × Option ReqOutcome × List Envelope :=
  if st.session.state ≠ HandshakeState.CONNECTED then
    (st, some (ReqOutcome.failure ErrorKind.SESSION_NOT_CONNECTED "session not connected"), [])
  else
    match st.corr.send rid ch now timeoutMs with
    | (_, some f) => (st, some f, [])
    | (c', none) =>
        ({ st with corr := c' }, none,
         [{ id := rid, type := .REQUEST, channel := some ch, correlationId := none
            payload := some p, origin := "", timestamp := now }])

/-- Modelled from the spec §7: `subscribe` on the Protocol Engine.  A
session that is not CONNECTED rejects the call immediately with
`SESSION_NOT_CONNECTED` rather than queuing it, and nothing reaches the
wire; otherwise the local Subscription Registry registers the
subscriber. -/
def engineSubscribe (st : EngineState) (ch : String) (fails : Bool) :
    EngineState × Option ReqOutcome × List SubWire :=
  if st.session.state ≠ HandshakeState.CONNECTED then
    (st, some (ReqOutcome.failure ErrorKind.SESSION_NOT_CONNECTED "session not connected"), [])
  else
    ({ st with registry := (st.registry.subscribe ch fails).1 }, none,
     (st.registry.subscribe ch fails).2.2)

end MkpCore

namespace MkpClient

open MkpCore

/-- Modelled from the client README: the context of one resource in the
application context — `resourceId`, `tenantId`, `tenantName`, `context`
(the context carrying environment identifiers such as live/preview). -/
structure ResourceContext where
  live : String
  preview : String
  deriving DecidableEq, Repr

/-- Modelled from the client README: one entry of `resources` in the
application context. -/
structure AppResource where
  resourceId : String
  tenantId : String
  tenantName : String
  context : ResourceContext
  deriving DecidableEq, Repr

/-- Modelled from the client README: the `ApplicationContext` returned by
`client.query('application.context')` — id, name, type, url, iconUrl,
installationId, and the associated resources. -/
structure ApplicationContext where
  id : String
  name : String
  type : String
  url : String
  iconUrl : String
  installationId : String
  resources : List AppResource
  deriving DecidableEq, Repr

/-- Modelled from the client README: the host side as the client sees it
through the core — the current data served for each dot-notated key, and
the application context served for the key `application.context`. -/
structure HostModel where
  dataFor : String → Payload
  appContext : ApplicationContext

/-- Modelled from the client README: the Client SDK's internal state —
whether the core handshake has completed, the live subscriptions
(handle, key) in registration order, and the next fresh handle. -/
structure ClientState where
  connected : Bool
  activeSubs : List (Nat × String)
  nextHandle : Nat
  deriving DecidableEq, Repr

/-- Modelled from the client README: options of `client.query`; with
`subscribe: true` the query also registers for live updates. -/
structure QueryOptions where
  subscribe : Bool
  deriving DecidableEq, Repr

/-- Modelled from the client README: the resolved result of
`client.query` — `data`, `isLoading` (false once the request completes),
and, exactly for subscription queries, the `unsubscribe` capability
(carried here as the subscription handle it releases). -/
structure QueryResult where
  data : Payload
  isLoading : Bool
  subHandle : Option Nat
  deriving DecidableEq, Repr

/-- Modelled from the client README: `client.query(key, options)` issues
a request through the core — only possible once the handshake completed
— and resolves with the current host data for the key; with
`subscribe: true` it additionally registers a live subscription whose
`unsubscribe` capability the result exposes; without it no subscription
is created and the capability is absent. -/
def clientQuery (c : ClientState) (host : HostModel) (key : String)
    (opts : QueryOptions) : Except ErrorKind (QueryResult × ClientState) :=
  if ¬ c.connected then .error .SESSION_NOT_CONNECTED
  else if opts.subscribe then
    .ok ({ data := host.dataFor key, isLoading := false, subHandle := some c.nextHandle },
         { c with activeSubs := c.activeSubs ++ [(c.nextHandle, key)]
                  nextHandle := c.nextHandle + 1 })
  else
    .ok ({ data := host.dataFor key, isLoading := false, subHandle := none }, c)

/-- Modelled from the client README: `refetch` re-issues the query as a
one-off request and resolves with the host's data at refetch time. -/
def clientRefetch (c : ClientState) (host : HostModel) (key : String) :
    Except ErrorKind QueryResult :=
  (clientQuery c host key { subscribe := false }).map Prod.fst

/-- Modelled from the client README: `unsubscribe` releases the
subscription so that it no longer receives updates. -/
def ClientState.unsub (c : ClientState) (h : Nat) : ClientState :=
  { c with activeSubs := c.activeSubs.filter (fun q => q.1 != h) }

/-- Modelled from the client README: when the host publishes an update
for a key, the client delivers an `onSuccess` callback to each currently
active subscription for that key; returns the handles invoked. -/
def ClientState.deliverUpdate (c : ClientState) (key : String) : List Nat :=
  (c.activeSubs.filter (fun q => q.2 == key)).map Prod.fst

/-- The typed data resolved by a query: the key `application.context`
resolves with the `ApplicationContext`, other keys with their host
data. -/
inductive QueryData
  | appContext (ctx : ApplicationContext)
  | generic (p : Payload)
  deriving DecidableEq, Repr

/-- Modelled from the client README: querying by key on an initialized
client with typed results — `client.query('application.context')`
returns data of type `ApplicationContext`. -/
def clientQueryTyped (c : ClientState) (host : HostModel) (key : String) :
    Except ErrorKind QueryData :=
  if ¬ c.connected then .error .SESSION_NOT_CONNECTED
  else if key = "application.context" then .ok (.appContext host.appContext)
  else .ok (.generic (host.dataFor key))

end MkpClient

/-! ## Theorems -/

namespace MkpCore

/-- A RESPONSE matching a pending request with no prior resolution
completes the deferred result with the response's payload. -/
theorem result_set_of_onResponse (s : CorrState) (cid : String) (p : Payload)
    (hp : s.isPending cid = true) (hr : s.result cid = none) :
    (s.onResponse cid p).result cid = some (ReqOutcome.success p) := by
  have hfind : s.resolved.find? (fun r => r.1 == cid) = none := by
    simpa [CorrState.result] using hr
  simp [CorrState.onResponse, hp, CorrState.result, List.find?_append, hfind]

/-- A completed deferred result is never overwritten by later RESPONSE
processing (exactly-once resolution). -/
theorem result_preserved_onResponse (s : CorrState) (x cid : String) (p : Payload)
    (o : ReqOutcome) (h : s.result cid = some o) :
    (s.onResponse x p).result cid = some o := by
  obtain ⟨r, hfind, hsnd⟩ : ∃ r, s.resolved.find? (fun q => q.1 == cid) = some r ∧ r.2 = o := by
    simp only [CorrState.result, Option.map_eq_some'] at h
    exact h
  cases hx : s.isPending x with
  | false => simpa [CorrState.onResponse, hx, CorrState.result, hfind] using hsnd
  | true =>
    simp [CorrState.onResponse, hx, CorrState.result, List.find?_append, hfind, hsnd]

/-- Processing a RESPONSE for a different correlation id leaves an
unresolved request unresolved. -/
theorem result_none_onResponse_ne (s : CorrState) (x cid : String) (p : Payload)
    (hne : x ≠ cid) (h : s.result cid = none) :
    (s.onResponse x p).result cid = none := by
  have hfind : s.resolved.find? (fun r => r.1 == cid) = none := by
    simpa [CorrState.result] using h
  cases hx : s.isPending x with
  | false => simp [CorrState.onResponse, hx, CorrState.result, hfind]
  | true => simp [CorrState.onResponse, hx, CorrState.result, List.find?_append, hfind, hne]

/-- Processing a RESPONSE for a different correlation id does not
remove another pending request. -/
theorem isPending_onResponse_ne (s : CorrState) (x cid : String) (p : Payload)
    (hne : cid ≠ x) :
    (s.onResponse x p).isPending cid = s.isPending cid := by
  cases hx : s.isPending x with
  | false =>
    simp only [CorrState.onResponse, hx]
    rfl
  | true =>
    simp only [CorrState.onResponse, hx, if_true]
    rw [Bool.eq_iff_iff]
    simp only [CorrState.isPending, List.any_eq_true, List.mem_filter]
    constructor
    · rintro ⟨q, ⟨hq, _⟩, hcid⟩; exact ⟨q, hq, hcid⟩
    · rintro ⟨q, hq, hcid⟩
      have hqid : q.id = cid := by simpa using hcid
      refine ⟨q, ⟨hq, ?_⟩, hcid⟩
      simp [hqid, hne]

/-- A completed deferred result survives the processing of any further
sequence of RESPONSE arrivals. -/
theorem result_preserved_processResponses (rs : List (String × Payload)) (s : CorrState)
    (cid : String) (o : ReqOutcome) (h : s.result cid = some o) :
    (processResponses s rs).result cid = some o := by
  induction rs generalizing s with
  | nil => exact h
  | cons r rest ih => exact ih _ (result_preserved_onResponse _ _ _ _ _ h)

/-- C1.  For every set of requests issued via the Correlation Manager's
`send` before any response arrives (each pending and unresolved, with
distinct ids), and for every arrival order of the responses — the list
`rs` of (correlationId, payload) arrivals is arbitrary — each request's
deferred result resolves with the payload of the RESPONSE envelope whose
`correlationId` equals that request's id: resolution is by id matching,
not FIFO. -/
theorem correlation_resolves_by_id (s : CorrState) (rs : List (String × Payload))
    (hnd : (rs.map Prod.fst).Nodup)
    (hpend : ∀ r ∈ rs, s.isPending r.1 = true)
    (hfresh : ∀ r ∈ rs, s.result r.1 = none) :
    ∀ r ∈ rs, (processResponses s rs).result r.1 = some (ReqOutcome.success r.2) := by
  induction rs generalizing s with
  | nil => intro r hr; cases hr
  | cons hd tl ih =>
    have hnd' : (tl.map Prod.fst).Nodup := (List.nodup_cons.mp (by simpa using hnd)).2
    have hhd_not : hd.1 ∉ tl.map Prod.fst := (List.nodup_cons.mp (by simpa using hnd)).1
    intro r hr
    have hstep : processResponses s (hd :: tl) = processResponses (s.onResponse hd.1 hd.2) tl := rfl
    rw [hstep]
    cases hr with
    | head =>
      have h1 : (s.onResponse hd.1 hd.2).result hd.1 = some (ReqOutcome.success hd.2) :=
        result_set_of_onResponse s hd.1 hd.2 (hpend hd (List.mem_cons_self _ _))
          (hfresh hd (List.mem_cons_self _ _))
      exact result_preserved_processResponses tl _ _ _ h1
    | tail _ hr' =>
      have hqne : ∀ q ∈ tl, q.1 ≠ hd.1 := by
        intro q hq he
        exact hhd_not (he ▸ List.mem_map_of_mem Prod.fst hq)
      have hpend' : ∀ q ∈ tl, (s.onResponse hd.1 hd.2).isPending q.1 = true := by
        intro q hq
        rw [isPending_onResponse_ne s hd.1 q.1 hd.2 (hqne q hq)]
        exact hpend q (List.mem_cons_of_mem _ hq)
      have hfresh' : ∀ q ∈ tl, (s.onResponse hd.1 hd.2).result q.1 = none := by
        intro q hq
        exact result_none_onResponse_ne s hd.1 q.1 hd.2 (fun he => hqne q hq he.symm)
          (hfresh q (List.mem_cons_of_mem _ hq))
      exact ih _ hnd' hpend' hfresh' r hr'

/-- C1 witness: two pending requests whose responses arrive in reverse
order each resolve with their own response's payload. -/
theorem correlation_resolves_by_id_witness :
    (processResponses
        { pending := [⟨"req-1", "host.state", 0, 100⟩, ⟨"req-2", "xmc.publishing.status", 0, 100⟩]
          resolved := [], anomalies := 0 }
        [("req-2", "payload-2"), ("req-1", "payload-1")]).result "req-1"
        = some (ReqOutcome.success "payload-1")
    ∧ (processResponses
        { pending := [⟨"req-1", "host.state", 0, 100⟩, ⟨"req-2", "xmc.publishing.status", 0, 100⟩]
          resolved := [], anomalies := 0 }
        [("req-2", "payload-2"), ("req-1", "payload-1")]).result "req-2"
        = some (ReqOutcome.success "payload-2") := by
  have h := correlation_resolves_by_id
    { pending := [⟨"req-1", "host.state", 0, 100⟩, ⟨"req-2", "xmc.publishing.status", 0, 100⟩]
      resolved := [], anomalies := 0 }
    [("req-2", "payload-2"), ("req-1", "payload-1")] (by decide) (by decide) (by decide)
  exact ⟨h ("req-1", "payload-1") (by decide), h ("req-2", "payload-2") (by decide)⟩

/-- C2.  A request whose deadline `now + timeoutMs` expires with no
matching RESPONSE or ERROR received resolves exactly once with failure
kind `REQUEST_TIMEOUT` (its resolution is recorded exactly once), the
Pending Request is removed, and a RESPONSE with that correlationId
arriving after expiry leaves the Correlation Manager's pending set and
resolutions — hence the already-resolved result — unchanged. -/
theorem request_timeout_exactly_once (s : CorrState) (req : PendingRequest) (now : Nat)
    (hmem : req ∈ s.pending)
    (huniq : ∀ q ∈ s.pending, q.id = req.id → q = req)
    (hcount : s.pending.countP (fun q => q.id == req.id) = 1)
    (hfresh : s.resolved.countP (fun r => r.1 == req.id) = 0)
    (hexp : req.deadline ≤ now) :
    ((s.expire now).result req.id
        = some (ReqOutcome.failure ErrorKind.REQUEST_TIMEOUT "request timed out"))
    ∧ (s.expire now).isPending req.id = false
    ∧ (s.expire now).resolved.countP (fun r => r.1 == req.id) = 1
    ∧ ∀ p, ((s.expire now).onResponse req.id p).pending = (s.expire now).pending
        ∧ ((s.expire now).onResponse req.id p).resolved = (s.expire now).resolved
        ∧ ((s.expire now).onResponse req.id p).result req.id = (s.expire now).result req.id := by
  have hfresh' : ∀ r ∈ s.resolved, ¬ (r.1 == req.id) = true := by
    intro r hr
    have := List.countP_eq_zero.mp hfresh r hr
    simpa using this
  have hfind_res : s.resolved.find? (fun r => r.1 == req.id) = none :=
    List.find?_eq_none.mpr hfresh'
  have hreq_exp : req ∈ s.pending.filter (fun q => decide (q.deadline ≤ now)) :=
    List.mem_filter.mpr ⟨hmem, by simpa using hexp⟩
  have hresult : (s.expire now).result req.id
      = some (ReqOutcome.failure ErrorKind.REQUEST_TIMEOUT "request timed out") := by
    have hex : ∃ r ∈ (s.pending.filter (fun q => decide (q.deadline ≤ now))).map
        (fun q => (q.id, ReqOutcome.failure ErrorKind.REQUEST_TIMEOUT "request timed out")),
        ((fun r => (r : String × ReqOutcome).1 == req.id) r) = true :=
      ⟨(req.id, ReqOutcome.failure ErrorKind.REQUEST_TIMEOUT "request timed out"),
        List.mem_map_of_mem _ hreq_exp, by simp⟩
    obtain ⟨r, hrfind⟩ := Option.isSome_iff_exists.mp (List.find?_isSome.mpr hex)
    obtain ⟨q, hq_mem, hq_eq⟩ := List.mem_map.mp (List.mem_of_find?_eq_some hrfind)
    have hr2 : r.2 = ReqOutcome.failure ErrorKind.REQUEST_TIMEOUT "request timed out" := by
      rw [← hq_eq]
    simp only [CorrState.expire, CorrState.result, List.find?_append, hfind_res,
      Option.none_or, hrfind, Option.map_some', hr2]
  have hpend_false : (s.expire now).isPending req.id = false := by
    apply List.any_eq_false.mpr
    intro q hq
    have hq' := List.mem_filter.mp hq
    intro hbeq
    have hqid : q.id = req.id := by simpa using hbeq
    have : q = req := huniq q hq'.1 hqid
    have hlt : now < q.deadline := by simpa using hq'.2
    rw [this] at hlt
    omega
  refine ⟨hresult, hpend_false, ?_, ?_⟩
  · have hmap : ((s.pending.filter (fun q => decide (q.deadline ≤ now))).map
        (fun q => (q.id, ReqOutcome.failure ErrorKind.REQUEST_TIMEOUT "request timed out"))).countP
        (fun r => r.1 == req.id)
        = (s.pending.filter (fun q => decide (q.deadline ≤ now))).countP
            (fun q => q.id == req.id) := by
      rw [List.countP_map]
      rfl
    have hle : (s.pending.filter (fun q => decide (q.deadline ≤ now))).countP
        (fun q => q.id == req.id) ≤ 1 := by
      calc (s.pending.filter (fun q => decide (q.deadline ≤ now))).countP
            (fun q => q.id == req.id)
          = s.pending.countP
              (fun q => (q.id == req.id) && decide (q.deadline ≤ now)) :=
            List.countP_filter _ _ _
        _ ≤ s.pending.countP (fun q => q.id == req.id) :=
            List.countP_mono_left (fun q _ h => by
              simp only [Bool.and_eq_true] at h
              exact h.1)
        _ = 1 := hcount
    have hge : 1 ≤ (s.pending.filter (fun q => decide (q.deadline ≤ now))).countP
        (fun q => q.id == req.id) :=
      List.countP_pos_iff.mpr ⟨req, hreq_exp, by simp⟩
    simp only [CorrState.expire, List.countP_append, hfresh, hmap]
    omega
  · intro p
    refine ⟨?_, ?_, ?_⟩ <;> simp [CorrState.onResponse, hpend_false, CorrState.result]

/-- C2 witness: a request with deadline 50 and no response, expired at
time 60, resolves with `REQUEST_TIMEOUT`, is removed from the pending
set, and a late RESPONSE for it changes neither the pending set nor the
recorded resolutions. -/
theorem request_timeout_exactly_once_witness :
    (({ pending := [⟨"req-1", "host.state", 0, 50⟩], resolved := [], anomalies := 0
        } : CorrState).expire 60).result "req-1"
        = some (ReqOutcome.failure ErrorKind.REQUEST_TIMEOUT "request timed out")
    ∧ (({ pending := [⟨"req-1", "host.state", 0, 50⟩], resolved := [], anomalies := 0
        } : CorrState).expire 60).isPending "req-1" = false
    ∧ (({ pending := [⟨"req-1", "host.state", 0, 50⟩], resolved := [], anomalies := 0
        } : CorrState).expire 60).resolved.countP (fun r => r.1 == "req-1") = 1
    ∧ ((((
        { pending := [⟨"req-1", "host.state", 0, 50⟩], resolved := [], anomalies := 0
        } : CorrState).expire 60).onResponse "req-1" "late-payload").pending
        = (({ pending := [⟨"req-1", "host.state", 0, 50⟩], resolved := [], anomalies := 0
        } : CorrState).expire 60).pending
      ∧ (((({ pending := [⟨"req-1", "host.state", 0, 50⟩], resolved := [], anomalies := 0
        } : CorrState).expire 60).onResponse "req-1" "late-payload").resolved
        = (({ pending := [⟨"req-1", "host.state", 0, 50⟩], resolved := [], anomalies := 0
        } : CorrState).expire 60).resolved)
      ∧ (((({ pending := [⟨"req-1", "host.state", 0, 50⟩], resolved := [], anomalies := 0
        } : CorrState).expire 60).onResponse "req-1" "late-payload").result "req-1"
        = (({ pending := [⟨"req-1", "host.state", 0, 50⟩], resolved := [], anomalies := 0
        } : CorrState).expire 60).result "req-1")) := by
  have h := request_timeout_exactly_once
    { pending := [⟨"req-1", "host.state", 0, 50⟩], resolved := [], anomalies := 0 }
    ⟨"req-1", "host.state", 0, 50⟩ 60
    (by decide) (by decide) (by decide) (by decide) (by decide)
  exact ⟨h.1, h.2.1, h.2.2.1, h.2.2.2 "late-payload"⟩

/-- Once FAILED, a handshake session is unchanged by any further event. -/
theorem handshakeStep_failed_absorbing (s : HandshakeSession) (e : HandshakeEvent)
    (hst : s.state = HandshakeState.FAILED) : handshakeStep s e = s := by
  simp [handshakeStep, hst, HandshakeState.isTerminal]

/-- C3.  The handshake state machine: (a) a run in which the initiator
(in `INIT_SENT`) receives HANDSHAKE_ACK with the matching nonce from an
allowed origin and then sends HANDSHAKE_COMPLETE reaches `CONNECTED`;
(b) a nonce mismatch on HANDSHAKE_ACK or HANDSHAKE_COMPLETE in any
non-terminal state moves the session to `FAILED`; (c) any handshake
envelope from an origin outside `allowedOrigins` in a non-terminal state
moves the session to `FAILED`; (d) `FAILED` is absorbing — no envelope
changes a FAILED session; (e) hence no sequence of events moves a FAILED
session to `CONNECTED` or any other state. -/
theorem handshake_connected_and_failed_sticky :
    (∀ (s : HandshakeSession) (o n : String),
        s.state = HandshakeState.INIT_SENT → s.nonce = some n → o ∈ s.allowedOrigins →
        (handshakeRun s [HandshakeEvent.recvAck o n, HandshakeEvent.sendComplete]).state
          = HandshakeState.CONNECTED)
    ∧ (∀ (s : HandshakeSession) (o n n' : String),
        s.state.isTerminal = false → s.nonce = some n → n' ≠ n → o ∈ s.allowedOrigins →
        (handshakeStep s (HandshakeEvent.recvAck o n')).state = HandshakeState.FAILED
        ∧ (handshakeStep s (HandshakeEvent.recvComplete o n')).state = HandshakeState.FAILED)
    ∧ (∀ (s : HandshakeSession) (o n : String),
        s.state.isTerminal = false → o ∉ s.allowedOrigins →
        (handshakeStep s (HandshakeEvent.recvInit o)).state = HandshakeState.FAILED
        ∧ (handshakeStep s (HandshakeEvent.recvAck o n)).state = HandshakeState.FAILED
        ∧ (handshakeStep s (HandshakeEvent.recvComplete o n)).state = HandshakeState.FAILED)
    ∧ (∀ (s : HandshakeSession) (e : HandshakeEvent),
        s.state = HandshakeState.FAILED → handshakeStep s e = s)
    ∧ (∀ (s : HandshakeSession) (es : List HandshakeEvent),
        s.state = HandshakeState.FAILED → (handshakeRun s es).state = HandshakeState.FAILED) := by
  refine ⟨?_, ?_, ?_, handshakeStep_failed_absorbing, ?_⟩
  · intro s o n hst hn ho
    simp [handshakeRun, handshakeStep, hst, hn, ho, HandshakeState.isTerminal]
  · intro s o n n' hterm hn hne ho
    obtain ⟨st, allowed, nonce, pinned⟩ := s
    cases st <;> simp_all [handshakeStep, HandshakeState.isTerminal, Ne.symm hne]
  · intro s o n hterm ho
    obtain ⟨st, allowed, nonce, pinned⟩ := s
    cases st <;> simp_all [handshakeStep, HandshakeState.isTerminal]
  · intro s es hst
    induction es generalizing s with
    | nil => exact hst
    | cons e rest ih =>
      have hstep : handshakeStep s e = s := handshakeStep_failed_absorbing s e hst
      show (handshakeRun (handshakeStep s e) rest).state = HandshakeState.FAILED
      rw [hstep]
      exact ih s hst

/-- C3 witness: on a concrete session with allowed origin
`https://host.example` and nonce `n-1`: the matched-ACK-then-COMPLETE run
connects; a mismatched nonce fails; an envelope from an outside origin
fails; and a FAILED session is unchanged by any event and stays FAILED
over a run. -/
theorem handshake_connected_and_failed_sticky_witness :
    (handshakeRun
        ⟨HandshakeState.INIT_SENT, ["https://host.example"], some "n-1", none⟩
        [HandshakeEvent.recvAck "https://host.example" "n-1",
         HandshakeEvent.sendComplete]).state = HandshakeState.CONNECTED
    ∧ (handshakeStep
        ⟨HandshakeState.INIT_SENT, ["https://host.example"], some "n-1", none⟩
        (HandshakeEvent.recvAck "https://host.example" "n-2")).state = HandshakeState.FAILED
    ∧ (handshakeStep
        ⟨HandshakeState.INIT_SENT, ["https://host.example"], some "n-1", none⟩
        (HandshakeEvent.recvAck "https://evil.example" "n-1")).state = HandshakeState.FAILED
    ∧ handshakeStep
        ⟨HandshakeState.FAILED, ["https://host.example"], some "n-1", none⟩
        (HandshakeEvent.recvAck "https://host.example" "n-1")
        = ⟨HandshakeState.FAILED, ["https://host.example"], some "n-1", none⟩
    ∧ (handshakeRun
        ⟨HandshakeState.FAILED, ["https://host.example"], some "n-1", none⟩
        [HandshakeEvent.recvAck "https://host.example" "n-1",
         HandshakeEvent.sendComplete]).state = HandshakeState.FAILED := by
  obtain ⟨hA, hB, hC, hD, hE⟩ := handshake_connected_and_failed_sticky
  refine ⟨hA ⟨HandshakeState.INIT_SENT, ["https://host.example"], some "n-1", none⟩
      "https://host.example" "n-1" (by decide) (by decide) (by decide), ?_, ?_, ?_, ?_⟩
  · exact (hB ⟨HandshakeState.INIT_SENT, ["https://host.example"], some "n-1", none⟩
      "https://host.example" "n-1" "n-2" (by decide) (by decide) (by decide) (by decide)).1
  · exact (hC ⟨HandshakeState.INIT_SENT, ["https://host.example"], some "n-1", none⟩
      "https://evil.example" "n-1" (by decide) (by decide)).2.1
  · exact hD ⟨HandshakeState.FAILED, ["https://host.example"], some "n-1", none⟩
      (HandshakeEvent.recvAck "https://host.example" "n-1") (by decide)
  · exact hE ⟨HandshakeState.FAILED, ["https://host.example"], some "n-1", none⟩
      [HandshakeEvent.recvAck "https://host.example" "n-1",
       HandshakeEvent.sendComplete] (by decide)

/-- Removing the one subscriber with a given handle lowers its channel's
reference count by exactly one. -/
theorem countP_remove_handle (subs : List Subscriber) (sub : Subscriber)
    (hcount : subs.countP (fun x => x.handle == sub.handle) = 1)
    (hmem : sub ∈ subs) :
    (subs.filter (fun x => x.handle != sub.handle)).countP
        (fun x => x.channel == sub.channel) + 1
      = subs.countP (fun x => x.channel == sub.channel) := by
  have hpart := List.countP_eq_countP_filter_add subs
    (fun x => x.channel == sub.channel) (fun x => x.handle != sub.handle)
  have hneg : (subs.filter (fun x => !(x.handle != sub.handle))).countP
      (fun x => x.channel == sub.channel) = 1 := by
    have hle : (subs.filter (fun x => !(x.handle != sub.handle))).countP
        (fun x => x.channel == sub.channel) ≤ 1 := by
      calc (subs.filter (fun x => !(x.handle != sub.handle))).countP
            (fun x => x.channel == sub.channel)
          = subs.countP (fun x => (x.channel == sub.channel) && !(x.handle != sub.handle)) :=
            List.countP_filter _ _ _
        _ ≤ subs.countP (fun x => x.handle == sub.handle) := by
            refine List.countP_mono_left (fun x _ h => ?_)
            simp only [Bool.and_eq_true, Bool.not_eq_true', bne_eq_false_iff_eq] at h
            simp [h.2]
        _ = 1 := hcount
    have hge : 1 ≤ (subs.filter (fun x => !(x.handle != sub.handle))).countP
        (fun x => x.channel == sub.channel) := by
      refine List.countP_pos_iff.mpr ⟨sub, List.mem_filter.mpr ⟨hmem, by simp⟩, by simp⟩
    omega
  omega

/-- C4.  Reference counting in the Subscription Registry: `subscribe`
emits exactly one SUBSCRIBE envelope precisely when the channel's local
reference count transitions from zero to one (and it always increments
the count by one); `unsubscribe` of a registered subscriber emits
exactly one UNSUBSCRIBE envelope precisely when the count transitions
from one to zero (and it always decrements the count by one).
Intermediate calls therefore produce no wire traffic. -/
theorem subscription_wire_refcount :
    (∀ (s : SubState) (ch : String) (f : Bool),
        ((s.subscribe ch f).2.2 = if s.refCount ch = 0 then [SubWire.SUBSCRIBE ch] else [])
        ∧ (s.subscribe ch f).1.refCount ch = s.refCount ch + 1)
    ∧ (∀ (s : SubState) (sub : Subscriber),
        sub ∈ s.subs →
        s.subs.countP (fun x => x.handle == sub.handle) = 1 →
        ((s.unsubscribe sub.handle).2
            = if s.refCount sub.channel = 1 then [SubWire.UNSUBSCRIBE sub.channel] else [])
        ∧ (s.unsubscribe sub.handle).1.refCount sub.channel + 1 = s.refCount sub.channel) := by
  constructor
  · intro s ch f
    constructor
    · rfl
    · simp [SubState.subscribe, SubState.refCount, List.filter_append]
  · intro s sub hmem hcount
    have hfind : s.subs.find? (fun x => x.handle == sub.handle) = some sub := by
      have hsome : (s.subs.find? (fun x => x.handle == sub.handle)).isSome = true :=
        List.find?_isSome.mpr ⟨sub, hmem, beq_self_eq_true sub.handle⟩
      obtain ⟨x, hxfind⟩ := Option.isSome_iff_exists.mp hsome
      have hxmem := List.mem_of_find?_eq_some hxfind
      have hxpred := List.find?_some hxfind
      have hlen : (s.subs.filter (fun y => y.handle == sub.handle)).length = 1 := by
        have h := hcount
        rw [List.countP_eq_length_filter] at h
        exact h
      obtain ⟨y, hy⟩ := List.length_eq_one.mp hlen
      have hxf : x ∈ s.subs.filter (fun y => y.handle == sub.handle) :=
        List.mem_filter.mpr ⟨hxmem, hxpred⟩
      have hsf : sub ∈ s.subs.filter (fun y => y.handle == sub.handle) :=
        List.mem_filter.mpr ⟨hmem, beq_self_eq_true sub.handle⟩
      rw [hy] at hxf hsf
      simp only [List.mem_singleton] at hxf hsf
      have hxeq : x = sub := by rw [hxf, ← hsf]
      rwa [hxeq] at hxfind
    have hkey := countP_remove_handle s.subs sub hcount hmem
    have hrc : s.refCount sub.channel = s.subs.countP (fun x => x.channel == sub.channel) := by
      simp [SubState.refCount, List.countP_eq_length_filter]
    constructor
    · simp only [SubState.unsubscribe, hfind]
      by_cases h1 : s.refCount sub.channel = 1
      · have : (s.subs.filter (fun x => x.handle != sub.handle)).countP
            (fun x => x.channel == sub.channel) = 0 := by omega
        simp [this, h1]
      · have : (s.subs.filter (fun x => x.handle != sub.handle)).countP
            (fun x => x.channel == sub.channel) ≠ 0 := by omega
        simp [this, h1]
    · simp only [SubState.unsubscribe, hfind, SubState.refCount,
        List.countP_eq_length_filter] at hkey ⊢
      exact hkey

/-- C4 witness: on channel `host.state` — the first subscriber emits one
SUBSCRIBE; with two subscribers, unsubscribing one emits nothing; the
last unsubscribe emits exactly one UNSUBSCRIBE. -/
theorem subscription_wire_refcount_witness :
    (({ subs := [], nextHandle := 0 } : SubState).subscribe "host.state" false).2.2
        = [SubWire.SUBSCRIBE "host.state"]
    ∧ (({ subs := [⟨0, "host.state", false⟩, ⟨1, "host.state", true⟩],
          nextHandle := 2 } : SubState).unsubscribe 1).2 = []
    ∧ (({ subs := [⟨0, "host.state", false⟩],
          nextHandle := 2 } : SubState).unsubscribe 0).2
        = [SubWire.UNSUBSCRIBE "host.state"] := by
  refine ⟨?_, ?_, ?_⟩
  · have h := (subscription_wire_refcount.1
      { subs := [], nextHandle := 0 } "host.state" false).1
    rw [h]; decide
  · have h := (subscription_wire_refcount.2
      { subs := [⟨0, "host.state", false⟩, ⟨1, "host.state", true⟩], nextHandle := 2 }
      ⟨1, "host.state", true⟩ (by decide) (by decide)).1
    rw [h]; decide
  · have h := (subscription_wire_refcount.2
      { subs := [⟨0, "host.state", false⟩], nextHandle := 2 }
      ⟨0, "host.state", false⟩ (by decide) (by decide)).1
    rw [h]; decide

/-- C5.  EVENT fan-out: (a) for every inbound EVENT the registry invokes
exactly the currently-registered local subscribers of its channel, in
registration order, regardless of which callbacks raise errors — the
invocation log's handles equal the registered handles in order, so an
error in one callback never prevents the remaining invocations; (b) a
subscriber registered once is invoked exactly once; (c) an EVENT for a
channel with no local subscribers is dropped (no invocation at all). -/
theorem event_fanout_order_and_isolation :
    (∀ (s : SubState) (ch : String),
        (s.deliverEvent ch).map Prod.fst
          = (s.subs.filter (fun x => x.channel == ch)).map Subscriber.handle)
    ∧ (∀ (s : SubState) (ch : String) (sub : Subscriber),
        sub ∈ s.subs → sub.channel = ch →
        s.subs.countP (fun x => x.handle == sub.handle) = 1 →
        (s.deliverEvent ch).countP (fun r => r.1 == sub.handle) = 1)
    ∧ (∀ (s : SubState) (ch : String),
        s.refCount ch = 0 → s.deliverEvent ch = []) := by
  refine ⟨?_, ?_, ?_⟩
  · intro s ch
    simp [SubState.deliverEvent, List.map_map, Function.comp]
  · intro s ch sub hmem hch hcount
    have hmap : (s.deliverEvent ch).countP (fun r => r.1 == sub.handle)
        = (s.subs.filter (fun x => x.channel == ch)).countP
            (fun x => x.handle == sub.handle) := by
      simp only [SubState.deliverEvent, List.countP_map]
      rfl
    have hle : (s.subs.filter (fun x => x.channel == ch)).countP
        (fun x => x.handle == sub.handle) ≤ 1 := by
      calc (s.subs.filter (fun x => x.channel == ch)).countP
            (fun x => x.handle == sub.handle)
          = s.subs.countP (fun x => (x.handle == sub.handle) && (x.channel == ch)) :=
            List.countP_filter _ _ _
        _ ≤ s.subs.countP (fun x => x.handle == sub.handle) := by
            refine List.countP_mono_left (fun x _ h => ?_)
            simp only [Bool.and_eq_true] at h
            exact h.1
        _ = 1 := hcount
    have hge : 1 ≤ (s.subs.filter (fun x => x.channel == ch)).countP
        (fun x => x.handle == sub.handle) := by
      refine List.countP_pos_iff.mpr ⟨sub, List.mem_filter.mpr ⟨hmem, ?_⟩, ?_⟩
      · simp [hch]
      · exact beq_self_eq_true sub.handle
    omega
  · intro s ch h0
    have : (s.subs.filter (fun x => x.channel == ch)) = [] :=
      List.length_eq_zero.mp h0
    simp [SubState.deliverEvent, this]

/-- C5 witness: with a failing subscriber (handle 0) registered before a
healthy one (handle 2) on `host.state`, the EVENT invokes exactly the
channel's subscribers in registration order — the error does not stop
delivery to handle 2, which is invoked exactly once — and an EVENT on a
subscriber-less channel is dropped. -/
theorem event_fanout_order_and_isolation_witness :
    (({ subs := [⟨0, "host.state", true⟩, ⟨1, "other.channel", false⟩,
          ⟨2, "host.state", false⟩], nextHandle := 3 } : SubState).deliverEvent
        "host.state").map Prod.fst = [0, 2]
    ∧ (({ subs := [⟨0, "host.state", true⟩, ⟨1, "other.channel", false⟩,
          ⟨2, "host.state", false⟩], nextHandle := 3 } : SubState).deliverEvent
        "host.state").countP (fun r => r.1 == 2) = 1
    ∧ (({ subs := [⟨0, "host.state", true⟩, ⟨1, "other.channel", false⟩,
          ⟨2, "host.state", false⟩], nextHandle := 3 } : SubState).deliverEvent
        "no.subscribers") = [] := by
  refine ⟨?_, ?_, ?_⟩
  · have h := event_fanout_order_and_isolation.1
      { subs := [⟨0, "host.state", true⟩, ⟨1, "other.channel", false⟩,
          ⟨2, "host.state", false⟩], nextHandle := 3 } "host.state"
    rw [h]; decide
  · exact event_fanout_order_and_isolation.2.1
      { subs := [⟨0, "host.state", true⟩, ⟨1, "other.channel", false⟩,
          ⟨2, "host.state", false⟩], nextHandle := 3 } "host.state"
      ⟨2, "host.state", false⟩ (by decide) (by decide) (by decide)
  · exact event_fanout_order_and_isolation.2.2
      { subs := [⟨0, "host.state", true⟩, ⟨1, "other.channel", false⟩,
          ⟨2, "host.state", false⟩], nextHandle := 3 } "no.subscribers" (by decide)

/-- A rejected envelope is processed into a silent drop: state unchanged,
nothing sent, never routed, nothing surfaced; only the diagnostic hook
records the reason. -/
theorem processInbound_rejected (cfg : EngineConfig) (st : EngineState) (e : Envelope)
    (r : RejectReason) (h : validateAt cfg st e = ValidationResult.Rejected r) :
    processInbound cfg st e
      = { state := st, sent := [], routed := false, callerFailures := []
          delivered := [], diagnostics := [r] } := by
  simp [processInbound, h]

/-- A trace step on a rejected envelope leaves the accumulator — engine
state and transcript of sent envelopes — exactly as it was. -/
theorem traceStep_rejected (cfg : EngineConfig) (acc : EngineState × List Envelope)
    (e : Envelope) (r : RejectReason)
    (h : validateAt cfg acc.1 e = ValidationResult.Rejected r) :
    traceStep cfg acc e = acc := by
  simp [traceStep, processInbound_rejected cfg acc.1 e r h]

/-- C6.  An inbound envelope the Origin Validator rejects
(ORIGIN_MISMATCH, MALFORMED, or STALE) is observably equivalent to one
that never arrived: (a) processing it leaves the engine state unchanged,
sends nothing back to the sender, never reaches the Protocol Engine's
router, surfaces no failure to caller code, and delivers nothing; (b)
any trace containing the rejected envelope produces the same final
engine state and the same transcript of sent envelopes as the trace with
that envelope deleted. -/
theorem rejected_envelope_silent_drop :
    (∀ (cfg : EngineConfig) (st : EngineState) (e : Envelope) (r : RejectReason),
        validateAt cfg st e = ValidationResult.Rejected r →
        processInbound cfg st e
          = { state := st, sent := [], routed := false, callerFailures := []
              delivered := [], diagnostics := [r] })
    ∧ (∀ (cfg : EngineConfig) (st : EngineState) (pre post : List Envelope)
        (e : Envelope) (r : RejectReason),
        validateAt cfg (processTrace cfg st pre).1 e = ValidationResult.Rejected r →
        processTrace cfg st (pre ++ e :: post) = processTrace cfg st (pre ++ post)) := by
  refine ⟨processInbound_rejected, ?_⟩
  intro cfg st pre post e r h
  unfold processTrace at h ⊢
  rw [List.foldl_append, List.foldl_append, List.foldl_cons,
    traceStep_rejected cfg _ e r h]

/-- C6 witness: a REQUEST from the untrusted origin
`https://evil.example` is dropped silently — unchanged state, nothing
sent, not routed, no caller failure, no delivery — and the one-envelope
trace containing it equals the empty trace. -/
theorem rejected_envelope_silent_drop_witness :
    processInbound
        { allowedOrigins := ["https://host.example"], skewMs := 0, handlers := []
          handlerFn := fun _ p => p }
        { session := ⟨HandshakeState.IDLE, ["https://host.example"], none, none⟩
          corr := ⟨[], [], 0⟩, registry := ⟨[], 0⟩, remoteSubs := []
          lastAccepted := 0, anomalies := 0 }
        { id := "x-1", type := EnvelopeType.REQUEST, channel := some "host.state"
          correlationId := none, payload := none
          origin := "https://evil.example", timestamp := 0 }
      = { state := { session := ⟨HandshakeState.IDLE, ["https://host.example"], none, none⟩
                     corr := ⟨[], [], 0⟩, registry := ⟨[], 0⟩, remoteSubs := []
                     lastAccepted := 0, anomalies := 0 }
          sent := [], routed := false, callerFailures := [], delivered := []
          diagnostics := [RejectReason.ORIGIN_MISMATCH] }
    ∧ processTrace
        { allowedOrigins := ["https://host.example"], skewMs := 0, handlers := []
          handlerFn := fun _ p => p }
        { session := ⟨HandshakeState.IDLE, ["https://host.example"], none, none⟩
          corr := ⟨[], [], 0⟩, registry := ⟨[], 0⟩, remoteSubs := []
          lastAccepted := 0, anomalies := 0 }
        [{ id := "x-1", type := EnvelopeType.REQUEST, channel := some "host.state"
           correlationId := none, payload := none
           origin := "https://evil.example", timestamp := 0 }]
      = processTrace
        { allowedOrigins := ["https://host.example"], skewMs := 0, handlers := []
          handlerFn := fun _ p => p }
        { session := ⟨HandshakeState.IDLE, ["https://host.example"], none, none⟩
          corr := ⟨[], [], 0⟩, registry := ⟨[], 0⟩, remoteSubs := []
          lastAccepted := 0, anomalies := 0 }
        [] := by
  constructor
  · exact rejected_envelope_silent_drop.1 _ _ _ RejectReason.ORIGIN_MISMATCH rfl
  · exact rejected_envelope_silent_drop.2 _ _ [] [] _ RejectReason.ORIGIN_MISMATCH rfl

/-- C7.  Round-trip: for every envelope — whatever origin and timestamp
values the sender holds — deserializing at the receiver what the sender
serialized yields an envelope equal to the original in `id`, `type`,
`channel`, `correlationId`, and `payload`, while `origin` and
`timestamp` of the received envelope are exactly the values stamped by
the receiving Transport Adapter from the underlying platform event. -/
theorem serialize_roundtrip_receiver_stamped (e : Envelope) (o : String) (t : Nat) :
    receiveWire (serialize e) o t
      = some { id := e.id, type := e.type, channel := e.channel
               correlationId := e.correlationId, payload := e.payload
               origin := o, timestamp := t } := by
  obtain ⟨i, ty, ch, cid, pl, orig, ts⟩ := e
  cases ty <;> cases ch <;> cases cid <;> cases pl <;> rfl

/-- C8.  A `request` or `subscribe` call on a session whose handshake
state is not CONNECTED (not yet completed, or FAILED) resolves
immediately with failure `SESSION_NOT_CONNECTED`, leaves the engine
state unchanged (nothing is queued), and sends no envelope over the
transport. -/
theorem not_connected_rejects_locally :
    (∀ (st : EngineState) (ch : String) (p : Payload) (rid : String) (now timeoutMs : Nat),
        st.session.state ≠ HandshakeState.CONNECTED →
        engineRequest st ch p rid now timeoutMs
          = (st, some (ReqOutcome.failure ErrorKind.SESSION_NOT_CONNECTED
              "session not connected"), []))
    ∧ (∀ (st : EngineState) (ch : String) (f : Bool),
        st.session.state ≠ HandshakeState.CONNECTED →
        engineSubscribe st ch f
          = (st, some (ReqOutcome.failure ErrorKind.SESSION_NOT_CONNECTED
              "session not connected"), [])) := by
  constructor
  · intro st ch p rid now timeoutMs h
    simp [engineRequest, h]
  · intro st ch f h
    simp [engineSubscribe, h]

/-- C8 witness: a REQUEST on `xmc.publishing.status` before handshake
completion (state `INIT_SENT`) and a `subscribe` on a FAILED session are
both rejected locally with `SESSION_NOT_CONNECTED`, with unchanged state
and nothing on the wire. -/
theorem not_connected_rejects_locally_witness :
    engineRequest
        { session := ⟨HandshakeState.INIT_SENT, ["https://host.example"], some "n-1", none⟩
          corr := ⟨[], [], 0⟩, registry := ⟨[], 0⟩, remoteSubs := []
          lastAccepted := 0, anomalies := 0 }
        "xmc.publishing.status" "{}" "req-1" 0 100
      = ({ session := ⟨HandshakeState.INIT_SENT, ["https://host.example"], some "n-1", none⟩
           corr := ⟨[], [], 0⟩, registry := ⟨[], 0⟩, remoteSubs := []
           lastAccepted := 0, anomalies := 0 },
         some (ReqOutcome.failure ErrorKind.SESSION_NOT_CONNECTED "session not connected"), [])
    ∧ engineSubscribe
        { session := ⟨HandshakeState.FAILED, ["https://host.example"], none, none⟩
          corr := ⟨[], [], 0⟩, registry := ⟨[], 0⟩, remoteSubs := []
          lastAccepted := 0, anomalies := 0 }
        "host.state" false
      = ({ session := ⟨HandshakeState.FAILED, ["https://host.example"], none, none⟩
           corr := ⟨[], [], 0⟩, registry := ⟨[], 0⟩, remoteSubs := []
           lastAccepted := 0, anomalies := 0 },
         some (ReqOutcome.failure ErrorKind.SESSION_NOT_CONNECTED "session not connected"), []) := by
  constructor
  · exact not_connected_rejects_locally.1 _ "xmc.publishing.status" "{}" "req-1" 0 100
      (by decide)
  · exact not_connected_rejects_locally.2 _ "host.state" false (by decide)

end MkpCore

namespace MkpClient

/-- After `unsubscribe`, no update delivery for any key invokes the
released subscription again. -/
theorem unsub_stops_delivery (c : ClientState) (h : Nat) (k : String) :
    h ∉ (c.unsub h).deliverUpdate k := by
  intro hmem
  simp only [ClientState.deliverUpdate, ClientState.unsub, List.mem_map,
    List.mem_filter] at hmem
  obtain ⟨q, ⟨⟨_, hq_ne⟩, _⟩, hq_fst⟩ := hmem
  simp [hq_fst] at hq_ne

/-- C9.  A successful `client.query(key, options)` with
`options.subscribe = true` resolves with a result exposing the
`unsubscribe` capability (the fresh subscription handle) and a `refetch`
that re-issues the query and resolves with the host's data at refetch
time (fresh data, for every host state at that moment); once
`unsubscribe` runs, no update delivery for any key invokes that
subscription's `onSuccess` again.  For a non-subscription query the
`unsubscribe` capability is absent. -/
theorem query_subscription_contract (c : ClientState) (host : HostModel) (key : String)
    (hc : c.connected = true) :
    (∃ res c', clientQuery c host key { subscribe := true } = Except.ok (res, c')
        ∧ res.subHandle = some c.nextHandle
        ∧ (∀ host', clientRefetch c' host' key
            = Except.ok { data := host'.dataFor key, isLoading := false, subHandle := none })
        ∧ (∀ k, c.nextHandle ∉ (c'.unsub c.nextHandle).deliverUpdate k))
    ∧ (∀ res c', clientQuery c host key { subscribe := false } = Except.ok (res, c') →
        res.subHandle = none) := by
  constructor
  · refine ⟨{ data := host.dataFor key, isLoading := false, subHandle := some c.nextHandle },
      { c with activeSubs := c.activeSubs ++ [(c.nextHandle, key)]
               nextHandle := c.nextHandle + 1 }, ?_, rfl, ?_, ?_⟩
    · simp [clientQuery, hc]
    · intro host'
      simp [clientRefetch, clientQuery, hc, Except.map]
    · intro k
      exact unsub_stops_delivery _ _ _
  · intro res c' hq
    simp [clientQuery, hc] at hq
    obtain ⟨h1, h2⟩ := hq
    subst h1
    rfl

/-- C9 witness: the subscription contract instantiated on a concrete
connected client and a concrete host. -/
theorem query_subscription_contract_witness :
    (∃ res c', clientQuery ⟨true, [], 0⟩
        { dataFor := fun _ => "state-v1"
          appContext := ⟨"my-app-id", "My App", "portal", "https://my-app.com/app",
            "https://my-app.com/assets/icon.png", "1234567890", []⟩ }
        "host.state" { subscribe := true } = Except.ok (res, c')
        ∧ res.subHandle = some (0 : Nat)
        ∧ (∀ host', clientRefetch c' host' "host.state"
            = Except.ok { data := host'.dataFor "host.state", isLoading := false
                          subHandle := none })
        ∧ (∀ k, (0 : Nat) ∉ (c'.unsub 0).deliverUpdate k))
    ∧ (∀ res c', clientQuery ⟨true, [], 0⟩
        { dataFor := fun _ => "state-v1"
          appContext := ⟨"my-app-id", "My App", "portal", "https://my-app.com/app",
            "https://my-app.com/assets/icon.png", "1234567890", []⟩ }
        "host.state" { subscribe := false } = Except.ok (res, c')
        → res.subHandle = none) :=
  query_subscription_contract ⟨true, [], 0⟩
    { dataFor := fun _ => "state-v1"
      appContext := ⟨"my-app-id", "My App", "portal", "https://my-app.com/app",
        "https://my-app.com/assets/icon.png", "1234567890", []⟩ }
    "host.state" rfl

/-- C10.  On an initialized client whose handshake has completed,
`client.query('application.context')` resolves with data of type
`ApplicationContext` — the host's application context — carrying the
fields `id`, `name`, `type`, `url`, `iconUrl`, `installationId`, and
`resources` (each resource with `resourceId`, `tenantId`, `tenantName`,
and `context`, by the `AppResource` structure). -/
theorem application_context_query (c : ClientState) (host : HostModel)
    (hc : c.connected = true) :
    ∃ ctx : ApplicationContext,
      clientQueryTyped c host "application.context" = Except.ok (QueryData.appContext ctx)
      ∧ ctx.id = host.appContext.id
      ∧ ctx.name = host.appContext.name
      ∧ ctx.type = host.appContext.type
      ∧ ctx.url = host.appContext.url
      ∧ ctx.iconUrl = host.appContext.iconUrl
      ∧ ctx.installationId = host.appContext.installationId
      ∧ ctx.resources = host.appContext.resources := by
  refine ⟨host.appContext, ?_, rfl, rfl, rfl, rfl, rfl, rfl, rfl⟩
  simp [clientQueryTyped, hc]

/-- C10 witness: the `application.context` query on a connected client
whose host serves the README's example application context. -/
theorem application_context_query_witness :
    ∃ ctx : ApplicationContext,
      clientQueryTyped ⟨true, [], 0⟩
        { dataFor := fun _ => ""
          appContext := ⟨"my-app-id", "My App", "portal", "https://my-app.com/app",
            "https://my-app.com/assets/icon.png", "1234567890",
            [⟨"resource-1", "tenant-1", "Example Tenant",
              ⟨"6Tt0eyd321kUNUkc1zt1YK", "5o9XlKyOHdr7CAWw3pZbN2"⟩⟩]⟩ }
        "application.context" = Except.ok (QueryData.appContext ctx)
      ∧ ctx.id = "my-app-id"
      ∧ ctx.name = "My App"
      ∧ ctx.type = "portal"
      ∧ ctx.url = "https://my-app.com/app"
      ∧ ctx.iconUrl = "https://my-app.com/assets/icon.png"
      ∧ ctx.installationId = "1234567890"
      ∧ ctx.resources = [⟨"resource-1", "tenant-1", "Example Tenant",
          ⟨"6Tt0eyd321kUNUkc1zt1YK", "5o9XlKyOHdr7CAWw3pZbN2"⟩⟩] :=
  application_context_query ⟨true, [], 0⟩
    { dataFor := fun _ => ""
      appContext := ⟨"my-app-id", "My App", "portal", "https://my-app.com/app",
        "https://my-app.com/assets/icon.png", "1234567890",
        [⟨"resource-1", "tenant-1", "Example Tenant",
          ⟨"6Tt0eyd321kUNUkc1zt1YK", "5o9XlKyOHdr7CAWw3pZbN2"⟩⟩]⟩ }
    rfl

end MkpClient
